import Mathlib

/-!
Verification development for the Surface System Aggregator Module (SAM)
client-device layer: the ssam bus (device registration and driver matching,
`src/module/src/bus.c`), the client-device registry and KIP hot-plug hub
(`src/module/src/clients/surface_aggregator_registry.c`), and the virtual
HID (VHF) driver with its chunked descriptor-transfer protocol
(`src/module/surface_sam_sid_vhf.c`).

The C code is shallowly embedded: machine integers become `Nat` (with `% 256`
where a `u8` store truncates), C side effects become explicit state passing,
and the external collaborators (the synchronous request channel
`surface_sam_ssh_rqst` / `ssam_retry`, the driver-core `device_add`, and
memory allocation) become explicit oracle parameters recording their
outcomes.  Fallible functions return their `errno`-style status explicitly.
-/

/- ------------------------------------------------------------------ -/
/- Errno constants (values of the Linux macros used by the sources).  -/
/- ------------------------------------------------------------------ -/

/-- Value of the `ENXIO` macro ("no such device or address" / not-ready). -/
def errNoSuchDevice : Int := 6

/-- Value of the `EINVAL` macro ("invalid argument"). -/
def errInvalidArg : Int := 22

/-- Value of the `EIO` macro ("input/output error"). -/
def errInOut : Int := 5

/- ------------------------------------------------------------------ -/
/- Bus: controller state, devices, `ssam_device_add` (bus.c).         -/
/- ------------------------------------------------------------------ -/

/-- States of `enum ssam_controller_state` (declared in controller.h; bus.c
only compares against `SSAM_CONTROLLER_STARTED`). -/
inductive SsamControllerState where
  | uninitialized
  | initialized
  | started
  | stopped
  | suspended
deriving DecidableEq

/-- The controller as seen by `ssam_device_add`: its state field (read under
the state lock) and the list of names of child devices registered under it
(the device tree below the controller). -/
structure SsamController where
  state : SsamControllerState
  children : List String
deriving DecidableEq

/-- A client device (`struct ssam_device`) between `ssam_device_alloc` and
`ssam_device_add`: its 128-bit type tag (as a `Nat`), the name of its parent
node, and its own name (`none` until `dev_set_name` runs). -/
structure SsamDevice where
  name : Option String
  parentName : String
  type : Nat
deriving DecidableEq

/-- Name derivation of `dev_set_name(&sdev->dev, "%s-%pUl:00", ...)` in
`ssam_device_add`: parent name, a dash, the printed type tag, ":00". -/
def ssam_device_name (sdev : SsamDevice) : String :=
  sdev.parentName ++ "-" ++ toString sdev.type ++ ":00"

/-- Embedding of `ssam_device_add` (bus.c lines 54-95).  Under the
controller state lock: if the controller state is not
`SSAM_CONTROLLER_STARTED`, return `-ENXIO` without touching device or tree;
otherwise set the device name and call `device_add`, whose outcome is the
oracle argument `device_add_status` (`0` on success, adding the device as a
child).  Returns (status, controller after, device after). -/
def ssam_device_add (ctrl : SsamController) (sdev : SsamDevice)
    (device_add_status : Int) : Int × SsamController × SsamDevice :=
  if ctrl.state ≠ SsamControllerState.started then
    (-errNoSuchDevice, ctrl, sdev)
  else
    let named := { sdev with name := some (ssam_device_name sdev) }
    if device_add_status = 0 then
      (0, { ctrl with children := ctrl.children ++ [ssam_device_name sdev] },
       named)
    else
      (device_add_status, ctrl, named)

/-- One entry of a driver identity table (`struct ssam_device_id`): the
128-bit GUID type tag (as a `Nat`; the all-zero GUID is `0`) and the driver
metadata word. -/
structure SsamDeviceId where
  type : Nat
  driver_data : Nat
deriving DecidableEq

/-- `guid_is_null` from linux/uuid.h: the tag equals the all-zero GUID. -/
def guid_is_null (g : Nat) : Bool := g == 0

/-- `guid_equal` from linux/uuid.h. -/
def guid_equal (a b : Nat) : Bool := a == b

/-- Embedding of `ssam_device_id_match` (bus.c lines 104-115): scan the
table in order until the all-zero sentinel tag, returning the first entry
whose tag equals the queried GUID.  The C loop walks raw memory until the
sentinel; the list argument is the memory starting at `table`. -/
def ssam_device_id_match : List SsamDeviceId → Nat → Option SsamDeviceId
  | [], _ => none
  | id :: rest, guid =>
    if guid_is_null id.type then none
    else if guid_equal id.type guid then some id
    else ssam_device_id_match rest guid

/- ------------------------------------------------------------------ -/
/- UID parsing and formatting (surface_aggregator_registry.c).        -/
/- ------------------------------------------------------------------ -/

/-- `enum ssam_kip_hub_state`. -/
inductive SsamKipHubState where
  | uninitialized
  | connected
  | disconnected
deriving DecidableEq

/-- The hub as acted on by the update work function: its state field and
the client devices currently registered under it (by numeric id). -/
structure SsamKipHub where
  state : SsamKipHubState
  children : List Nat
deriving DecidableEq

/-- Device-tree mutations performed by the hub paths: a successful
`ssam_device_add` of one child, or `ssam_remove_clients` /
`ssam_hot_remove_clients` removing every client below the hub. -/
inductive HubCall where
  | addDevice (id : Nat)
  | removeClients
deriving DecidableEq

/-- One firmware child node handed to `ssam_hub_add_device`, together with
the outcome that call produces for it (an environment oracle combining
`ssam_uid_from_string` on the node name, `ssam_device_alloc`, and
`ssam_device_add`): `0` on success, `-EINVAL` when the node name is not an
ssam UID, any other non-zero status on an irrecoverable failure. -/
structure ChildNode where
  id : Nat
  addStatus : Int
deriving DecidableEq

/-- Embedding of `ssam_hub_register_clients` (surface_aggregator_registry.c
lines 303-325): iterate over the child nodes; a node failing with `-EINVAL`
is skipped; any other failure jumps to `err`, where `ssam_remove_clients`
removes every client device under the parent, and the failing status is
returned.  Returns (status, children under parent afterwards, tree
mutations performed). -/
def ssam_hub_register_clients :
    List ChildNode → List Nat → Int × List Nat × List HubCall
  | [], children => (0, children, [])
  | node :: rest, children =>
    if node.addStatus = 0 then
      let r := ssam_hub_register_clients rest (children ++ [node.id])
      (r.1, r.2.1, HubCall.addDevice node.id :: r.2.2)
    else if node.addStatus = -errInvalidArg then
      ssam_hub_register_clients rest children
    else
      (node.addStatus, [], [HubCall.removeClients])

/-- Embedding of `ssam_kip_get_connection_state` (lines 360-373): the
`ssam_retry(__ssam_kip_get_connection_state, ...)` request outcome is the
oracle `query` (error status, or the `connected` byte as a Bool); on
success the state is `connected`/`disconnected` accordingly. -/
def ssam_kip_get_connection_state (query : Except Int Bool) :
    Except Int SsamKipHubState :=
  match query with
  | .error e => .error e
  | .ok connected =>
    .ok (if connected then SsamKipHubState.connected
         else SsamKipHubState.disconnected)

/-- Embedding of `ssam_kip_hub_update_workfn` (lines 419-441).  Returns the
hub afterwards, the tree mutations performed, and the status that would be
reported via dev_err ("failed to update KIP-hub devices") — `0` when
nothing is reported.  A failed connection-state query returns before any
mutation; an unchanged state returns before any mutation; otherwise the
state field is updated first, then children are registered (on entry to
connected) or removed (on entry to disconnected). -/
def ssam_kip_hub_update_workfn (query : Except Int Bool)
    (nodes : List ChildNode) (hub : SsamKipHub) :
    SsamKipHub × List HubCall × Int :=
  match ssam_kip_get_connection_state query with
  | .error _ => (hub, [], 0)
  | .ok state =>
    if hub.state = state then (hub, [], 0)
    else
      let hub' : SsamKipHub := { hub with state := state }
      if state = SsamKipHubState.connected then
        let r := ssam_hub_register_clients nodes hub'.children
        ({ hub' with children := r.2.1 }, r.2.2, r.1)
      else
        ({ hub' with children := [] }, [HubCall.removeClients], 0)

/- ------------------------------------------------------------------ -/
/- Event notifier dispatch (priorities from the two drivers).         -/
/- ------------------------------------------------------------------ -/

/-- A registered event listener: its `ssam_notifier_block` priority and an
identifying tag. -/
structure Listener where
  priority : Int
  tag : Nat
deriving DecidableEq

/-- Ordering relation "a may be dispatched no later than b" for ascending
priority order (lower value earlier). -/
def notifAsc (a b : Listener) : Prop := a.priority ≤ b.priority

/-- Ordering relation "a may be dispatched no later than b" for descending
priority order (higher value earlier). -/
def notifDesc (a b : Listener) : Prop := b.priority ≤ a.priority

instance : DecidableRel notifAsc := fun a b => Int.decLe a.priority b.priority

instance : DecidableRel notifDesc := fun a b => Int.decLe b.priority a.priority

instance : IsTotal Listener notifAsc :=
  ⟨fun a b => Int.le_total a.priority b.priority⟩

instance : IsTrans Listener notifAsc :=
  ⟨fun _ _ _ hab hbc => le_trans hab hbc⟩

instance : IsTotal Listener notifDesc :=
  ⟨fun a b => Int.le_total b.priority a.priority⟩

instance : IsTrans Listener notifDesc :=
  ⟨fun _ _ _ hab hbc => le_trans hbc hab⟩

/-- Modelled from the spec: the Event Notifier Dispatch core (external to
the four source files) delivers an event to the registered listeners "in
priority order" where, per the spec's external-interface section, "dispatch
order is ascending priority value (lower value = earlier)".  The dispatch
order of a listener set is the stable sort of the registration list by that
relation; listeners earlier in the result run first. -/
def dispatchOrderAscending (ls : List Listener) : List Listener :=
  ls.insertionSort notifAsc

/-- Modelled from the spec: the same dispatch core under the opposite
reading, "descending priority value (higher value = earlier)" — the
ordering actually required by the sources, whose KIP hub registers itself
with priority INT_MAX and the comment "This notifier should run first". -/
def dispatchOrderDescending (ls : List Listener) : List Listener :=
  ls.insertionSort notifDesc

/-- The KIP hub's listener: `hub->notif.base.priority = INT_MAX` in
`ssam_kip_hub_probe` (surface_aggregator_registry.c line 487). -/
def kipHubListener : Listener := { priority := 2147483647, tag := 0 }

/-- The VHF HID input listener: `vhf->notif.base.priority = 1` in
`surface_sam_sid_vhf_probe` (surface_sam_sid_vhf.c line 373). -/
def sidVhfListener : Listener := { priority := 1, tag := 1 }

/- ------------------------------------------------------------------ -/
/- VHF chunked descriptor transfer (surface_sam_sid_vhf.c).           -/
/- ------------------------------------------------------------------ -/

/-- `struct surface_sam_sid_vhf_meta_rqst`: operation id, running offset,
length (buffer limit on send, bytes carried on receive), end flag (`u8`,
0x01 when the end was reached; modelled as Bool). -/
structure VhfMetaRqst where
  id : Nat
  offset : Nat
  length : Nat
  endFlag : Bool
deriving DecidableEq

/-- Outcome of one `surface_sam_ssh_rqst` call in the VHF metadata
protocol: the returned status, and — because the response is written over
the whole `surface_sam_sid_vhf_meta_resp` — the header written back into
`resp.rqst` plus the payload bytes written into `resp.data.pld`. -/
structure VhfResponse where
  status : Int
  rqst : VhfMetaRqst
  pld : List Nat
deriving DecidableEq

/-- `memcpy(buf + off, src, src.length)` on a buffer modelled as a list
(in-bounds writes; all transfers considered here stay within the buffer). -/
def memcpyAt (buf : List Nat) (off : Nat) (src : List Nat) : List Nat :=
  buf.take off ++ src ++ buf.drop (off + src.length)

/-- The fetch loop of `vhf_get_hid_descriptor` (surface_sam_sid_vhf.c lines
176-185): while the end flag is unset and the offset is below the declared
total length, issue the request (the remote's behaviour is the oracle),
abort on a non-zero status, otherwise `memcpy` the carried bytes into the
buffer at the response's offset and advance the offset by the carried
length.  `fuel` bounds the number of iterations the embedding unfolds;
`none` means the loop is still running after `fuel` iterations.  Returns
the buffer (or the aborting status) and the number of requests issued. -/
def vhf_fetch_loop (oracle : VhfMetaRqst → VhfResponse) (len : Nat) :
    Nat → VhfMetaRqst → List Nat → Nat →
    Option (Except Int (List Nat) × Nat)
  | 0, _, _, _ => none
  | fuel + 1, rq, buf, reqs =>
    if rq.endFlag = false ∧ rq.offset < len then
      let r := oracle rq
      if r.status ≠ 0 then some (Except.error r.status, reqs + 1)
      else
        let h := r.rqst
        let buf' := memcpyAt buf h.offset (r.pld.take h.length)
        vhf_fetch_loop oracle len fuel { h with offset := h.offset + h.length }
          buf' (reqs + 1)
    else some (Except.ok buf, reqs)

/-- The `hid_len` field of `struct vhf_device_metadata_info` as read from
the response payload bytes: a little-endian `u16` at byte offset 7. -/
def vhf_info_hid_len (pld : List Nat) : Nat :=
  pld.getD 7 0 % 256 + 256 * (pld.getD 8 0 % 256)

/-- Embedding of `vhf_get_hid_descriptor` (surface_sam_sid_vhf.c lines
135-191): first a metadata request with id 0 discovers the total length,
then the buffer is allocated zeroed and the fetch loop runs with id 1,
offset 0, length limit 0x76.  Returns `(descriptor buffer, size)` or the
aborting status, together with the number of loop (read) requests issued;
`none` when the loop is still running after `fuel` iterations. -/
def vhf_get_hid_descriptor (oracle : VhfMetaRqst → VhfResponse)
    (fuel : Nat) : Option (Except Int (List Nat × Nat) × Nat) :=
  let r0 := oracle { id := 0, offset := 0, length := 0x76, endFlag := false }
  if r0.status ≠ 0 then some (Except.error r0.status, 0)
  else
    let len := vhf_info_hid_len r0.pld
    match vhf_fetch_loop oracle len fuel
        { id := 1, offset := 0, length := 0x76, endFlag := false }
        (List.replicate len 0) 0 with
    | none => none
    | some (Except.error e, n) => some (Except.error e, n)
    | some (Except.ok buf, n) => some (Except.ok (buf, len), n)

/-- A remote that answers the metadata request with a declared total length
of 1 byte and every read request with a zero-byte, end-flag-clear response
(status 0 each time): the protocol-violating remote of the zero-progress
scenario. -/
def vhf_zero_len_oracle : VhfMetaRqst → VhfResponse := fun rq =>
  if rq.id = 0 then
    { status := 0,
      rqst := { id := 0, offset := 0, length := 9, endFlag := false },
      pld := [0, 0, 0, 0, 0, 0, 0, 1, 0] }
  else
    { status := 0,
      rqst := { id := rq.id, offset := rq.offset, length := 0,
                endFlag := false },
      pld := [] }

/-- A well-behaved remote serving a descriptor of `total` bytes whose byte
at position i is `data i`: every read request at offset o with limit c is
answered with status 0, `min c (total - o)` carried bytes, end flag never
set early. -/
def vhf_chunk_oracle (total : Nat) (data : Nat → Nat) :
    VhfMetaRqst → VhfResponse := fun rq =>
  let n := min rq.length (total - rq.offset)
  { status := 0,
    rqst := { id := rq.id, offset := rq.offset, length := n,
              endFlag := false },
    pld := (List.range n).map (fun i => data (rq.offset + i)) }

/- ------------------------------------------------------------------ -/
/- VHF raw-request routing (surface_sam_sid_vhf.c).                   -/
/- ------------------------------------------------------------------ -/

/-- `HID_OUTPUT_REPORT` from linux/hid.h. -/
def HID_OUTPUT_REPORT : Nat := 1

/-- `HID_FEATURE_REPORT` from linux/hid.h. -/
def HID_FEATURE_REPORT : Nat := 2

/-- `HID_REQ_GET_REPORT` from linux/hid.h. -/
def HID_REQ_GET_REPORT : Nat := 1

/-- `HID_REQ_SET_REPORT` from linux/hid.h. -/
def HID_REQ_SET_REPORT : Nat := 9

/-- Outcome of the `surface_sam_ssh_rqst` call made by
`sid_vhf_hid_raw_request`: status and resulting response length. -/
structure SshRqstResult where
  status : Int
  len : Nat
deriving DecidableEq

/-- Embedding of `sid_vhf_hid_raw_request` (surface_sam_sid_vhf.c lines
213-282): command-code selection per report/request type; feature-get for
report numbers 6, 7, 8, 9, 0x0b returns 0 immediately without any request;
unknown types return `-EIO` without any request; otherwise one request is
issued (outcome `oracle`) and its status, or on success the response
length, is returned.  Returns (return value, number of requests issued to
the request channel). -/
def sid_vhf_hid_raw_request (reportnum : Nat) (rtype reqtype : Nat)
    (oracle : SshRqstResult) : Int × Nat :=
  if rtype = HID_OUTPUT_REPORT then
    (if oracle.status ≠ 0 then oracle.status else Int.ofNat oracle.len, 1)
  else if rtype = HID_FEATURE_REPORT then
    if reqtype = HID_REQ_GET_REPORT then
      if reportnum = 6 ∨ reportnum = 7 ∨ reportnum = 8 ∨ reportnum = 9 ∨
          reportnum = 0xb then
        (0, 0)
      else
        (if oracle.status ≠ 0 then oracle.status else Int.ofNat oracle.len, 1)
    else if reqtype = HID_REQ_SET_REPORT then
      (if oracle.status ≠ 0 then oracle.status else Int.ofNat oracle.len, 1)
    else (-errInOut, 0)
  else (-errInOut, 0)

/- ------------------------------------------------------------------ -/
/- Theorems.                                                          -/
/- ------------------------------------------------------------------ -/

/-- Claim C3: for every device and every controller state other than
started, `ssam_device_add` fails with the not-ready error `-ENXIO` and
performs no tree mutation — the device is not named, not added as a child,
and any name absent from the tree before is still absent afterward. -/
theorem ssam_device_add_not_started (ctrl : SsamController)
    (sdev : SsamDevice) (st : Int)
    (h : ctrl.state ≠ SsamControllerState.started) :
    ssam_device_add ctrl sdev st = (-errNoSuchDevice, ctrl, sdev) ∧
    (ssam_device_add ctrl sdev st).2.2.name = sdev.name ∧
    (ssam_device_add ctrl sdev st).2.1.children = ctrl.children ∧
    ∀ nm, nm ∉ ctrl.children →
      nm ∉ (ssam_device_add ctrl sdev st).2.1.children := by
  simp [ssam_device_add, h]

/-- Witness for `ssam_device_add_not_started` at a concrete controller in
the initialized (not started) state. -/
theorem ssam_device_add_not_started_witness :
    ssam_device_add ⟨SsamControllerState.initialized, []⟩ ⟨none, "base", 5⟩ 0
      = (-errNoSuchDevice, ⟨SsamControllerState.initialized, []⟩,
         ⟨none, "base", 5⟩) :=
  (ssam_device_add_not_started ⟨SsamControllerState.initialized, []⟩
    ⟨none, "base", 5⟩ 0 (by decide)).1

/-- A match result of `ssam_device_id_match` never has the all-zero tag:
the scan stops at the sentinel before ever comparing it. -/
theorem ssam_device_id_match_ne_null :
    ∀ (l : List SsamDeviceId) (guid : Nat) (e : SsamDeviceId),
      ssam_device_id_match l guid = some e → e.type ≠ 0
  | [], _, _ => by simp [ssam_device_id_match]
  | a :: rest, guid, e => by
    simp only [ssam_device_id_match, guid_is_null, guid_equal]
    split_ifs with h1 h2
    · simp
    · intro h
      obtain rfl : a = e := by simpa using h
      simpa using h1
    · exact ssam_device_id_match_ne_null rest guid e

/-- A query for the all-zero tag never matches any entry. -/
theorem ssam_device_id_match_zero :
    ∀ l : List SsamDeviceId, ssam_device_id_match l 0 = none
  | [] => rfl
  | a :: rest => by
    simp only [ssam_device_id_match, guid_is_null, guid_equal]
    split_ifs with h1
    · rfl
    · exact ssam_device_id_match_zero rest

/-- On a table that is a sentinel-terminated sequence, the match is the
first entry before the sentinel whose tag equals the queried one. -/
theorem ssam_device_id_match_first (pre : List SsamDeviceId)
    (s : SsamDeviceId) (post : List SsamDeviceId) (guid : Nat)
    (hpre : ∀ e ∈ pre, e.type ≠ 0) (hs : s.type = 0) :
    ssam_device_id_match (pre ++ s :: post) guid =
      pre.find? (fun e => e.type == guid) := by
  induction pre with
  | nil => simp [ssam_device_id_match, guid_is_null, hs]
  | cons a rest ih =>
    have ha : a.type ≠ 0 := hpre a (by simp)
    have hrest : ∀ e ∈ rest, e.type ≠ 0 := fun e he => hpre e (by simp [he])
    simp only [List.cons_append, ssam_device_id_match, guid_is_null,
      guid_equal, List.find?]
    split_ifs with h1 h2
    · exact absurd (by simpa using h1) ha
    · simp [h2]
    · simp only [h2]
      simpa using ih hrest

/-- Claim C6: for every identity table terminated by an all-zero sentinel
entry and every queried type tag, `ssam_device_id_match` returns the first
entry in table order whose tag equals the queried tag, never returns an
entry with the all-zero tag, and a query for the all-zero tag never
matches. -/
theorem ssam_device_id_match_spec (pre : List SsamDeviceId)
    (s : SsamDeviceId) (post : List SsamDeviceId) (guid : Nat)
    (hpre : ∀ e ∈ pre, e.type ≠ 0) (hs : s.type = 0) :
    ssam_device_id_match (pre ++ s :: post) guid =
      pre.find? (fun e => e.type == guid) ∧
    (∀ e, ssam_device_id_match (pre ++ s :: post) guid = some e →
      e.type ≠ 0) ∧
    ssam_device_id_match (pre ++ s :: post) 0 = none :=
  ⟨ssam_device_id_match_first pre s post guid hpre hs,
   fun e => ssam_device_id_match_ne_null _ _ e,
   ssam_device_id_match_zero _⟩

/-- Witness for `ssam_device_id_match_spec`: a concrete table with a
duplicate tag, a sentinel, and an entry behind the sentinel. -/
theorem ssam_device_id_match_spec_witness :
    ssam_device_id_match ([⟨5, 10⟩, ⟨7, 20⟩, ⟨7, 30⟩] ++ ⟨0, 0⟩ :: [⟨7, 40⟩])
        7 =
      List.find? (fun e => e.type == 7) [⟨5, 10⟩, ⟨7, 20⟩, ⟨7, 30⟩] ∧
    (∀ e, ssam_device_id_match
        ([⟨5, 10⟩, ⟨7, 20⟩, ⟨7, 30⟩] ++ ⟨0, 0⟩ :: [⟨7, 40⟩]) 7 = some e →
      e.type ≠ 0) ∧
    ssam_device_id_match ([⟨5, 10⟩, ⟨7, 20⟩, ⟨7, 30⟩] ++ ⟨0, 0⟩ :: [⟨7, 40⟩])
        0 = none :=
  ssam_device_id_match_spec [⟨5, 10⟩, ⟨7, 20⟩, ⟨7, 30⟩] ⟨0, 0⟩ [⟨7, 40⟩] 7
    (by decide) rfl

/-- When `ssam_hub_register_clients` fails, the error path has removed
every client device under the parent: the resulting child list is empty. -/
theorem ssam_hub_register_clients_err_children :
    ∀ (nodes : List ChildNode) (children : List Nat),
      (ssam_hub_register_clients nodes children).1 ≠ 0 →
      (ssam_hub_register_clients nodes children).2.1 = []
  | [], children => by simp [ssam_hub_register_clients]
  | node :: rest, children => by
    simp only [ssam_hub_register_clients]
    split_ifs with h1 h2
    · exact fun h =>
        ssam_hub_register_clients_err_children rest (children ++ [node.id]) h
    · exact fun h =>
        ssam_hub_register_clients_err_children rest children h
    · intro _; rfl

/-- Claim C7: when the hub transitions into the connected state and
enumeration of the child templates fails irrecoverably, the update task
leaves the hub in the connected state, every child device added during the
pass has been removed (the hub has no children afterward), and the failure
status is reported. -/
theorem kip_hub_connect_failure_rollback (nodes : List ChildNode)
    (hub : SsamKipHub) (hstate : hub.state ≠ SsamKipHubState.connected)
    (hfail : (ssam_hub_register_clients nodes hub.children).1 ≠ 0) :
    (ssam_kip_hub_update_workfn (Except.ok true) nodes hub).1.state =
      SsamKipHubState.connected ∧
    (ssam_kip_hub_update_workfn (Except.ok true) nodes hub).1.children =
      [] ∧
    (ssam_kip_hub_update_workfn (Except.ok true) nodes hub).2.2 =
      (ssam_hub_register_clients nodes hub.children).1 ∧
    (ssam_kip_hub_update_workfn (Except.ok true) nodes hub).2.2 ≠ 0 := by
  have hroll := ssam_hub_register_clients_err_children nodes hub.children hfail
  simp [ssam_kip_hub_update_workfn, ssam_kip_get_connection_state, hstate,
    hroll, hfail]

/-- Witness for `kip_hub_connect_failure_rollback`: a disconnected hub whose
first template succeeds, second is skipped with -EINVAL, third fails. -/
theorem kip_hub_connect_failure_rollback_witness :
    (⟨SsamKipHubState.disconnected, []⟩ : SsamKipHub).state ≠
      SsamKipHubState.connected ∧
    (ssam_kip_hub_update_workfn (Except.ok true)
      [⟨1, 0⟩, ⟨2, -errInvalidArg⟩, ⟨3, -12⟩]
      ⟨SsamKipHubState.disconnected, []⟩).1.state =
        SsamKipHubState.connected ∧
    (ssam_kip_hub_update_workfn (Except.ok true)
      [⟨1, 0⟩, ⟨2, -errInvalidArg⟩, ⟨3, -12⟩]
      ⟨SsamKipHubState.disconnected, []⟩).1.children = [] ∧
    (ssam_kip_hub_update_workfn (Except.ok true)
      [⟨1, 0⟩, ⟨2, -errInvalidArg⟩, ⟨3, -12⟩]
      ⟨SsamKipHubState.disconnected, []⟩).2.2 ≠ 0 := by
  have h := kip_hub_connect_failure_rollback
    [⟨1, 0⟩, ⟨2, -errInvalidArg⟩, ⟨3, -12⟩]
    ⟨SsamKipHubState.disconnected, []⟩ (by decide) (by decide)
  exact ⟨by decide, h.1, h.2.1, h.2.2.2⟩

/-- Claim C8: when the queried connection state equals the hub's current
state, the update task is a no-op — the hub is unchanged, no device-tree
mutation is performed, and no failure is reported. -/
theorem kip_hub_update_idempotent (b : Bool) (nodes : List ChildNode)
    (hub : SsamKipHub)
    (h : (if b then SsamKipHubState.connected
          else SsamKipHubState.disconnected) = hub.state) :
    ssam_kip_hub_update_workfn (Except.ok b) nodes hub = (hub, [], 0) := by
  simp [ssam_kip_hub_update_workfn, ssam_kip_get_connection_state, ← h]

/-- Witness for `kip_hub_update_idempotent`: a connected hub with children
re-evaluating a query that reports connected. -/
theorem kip_hub_update_idempotent_witness :
    ssam_kip_hub_update_workfn (Except.ok true) [⟨4, -12⟩]
      ⟨SsamKipHubState.connected, [1, 2]⟩ =
      (⟨SsamKipHubState.connected, [1, 2]⟩, [], 0) :=
  kip_hub_update_idempotent true [⟨4, -12⟩]
    ⟨SsamKipHubState.connected, [1, 2]⟩ (by decide)

/-- Claim C10: when the connection-state query fails, the update task
returns before any mutation — the hub is unchanged and no device-tree
mutation is performed. -/
theorem kip_hub_update_query_error (e : Int) (nodes : List ChildNode)
    (hub : SsamKipHub) :
    ssam_kip_hub_update_workfn (Except.error e) nodes hub = (hub, [], 0) :=
  rfl

/-- Claim C9: a feature-get raw request for a report number in the fixed
set 6, 7, 8, 9, 0x0b returns 0 (empty immediate success) and issues no
request to the request channel. -/
theorem sid_vhf_raw_request_feature_get_skip (reportnum : Nat)
    (oracle : SshRqstResult)
    (h : reportnum = 6 ∨ reportnum = 7 ∨ reportnum = 8 ∨ reportnum = 9 ∨
      reportnum = 0xb) :
    sid_vhf_hid_raw_request reportnum HID_FEATURE_REPORT HID_REQ_GET_REPORT
      oracle = (0, 0) := by
  simp [sid_vhf_hid_raw_request, HID_OUTPUT_REPORT, HID_FEATURE_REPORT,
    HID_REQ_GET_REPORT, h]

/-- Witness for `sid_vhf_raw_request_feature_get_skip` at report number 6,
with a channel oracle that would have returned 42 bytes. -/
theorem sid_vhf_raw_request_feature_get_skip_witness :
    sid_vhf_hid_raw_request 6 HID_FEATURE_REPORT HID_REQ_GET_REPORT ⟨0, 42⟩
      = (0, 0) :=
  sid_vhf_raw_request_feature_get_skip 6 ⟨0, 42⟩ (by decide)

/-- Claim C2 counterexample: with the two listeners as the sources register
them — the KIP hub at priority INT_MAX, the VHF HID input listener at
priority 1 — the spec's ascending dispatch order (lower value = earlier)
dispatches the HID input listener first, so the hub's listener does not run
before every other listener of the class. -/
theorem kip_dispatch_ascending_counterexample :
    dispatchOrderAscending [kipHubListener, sidVhfListener] =
      [sidVhfListener, kipHubListener] ∧
    sidVhfListener ≠ kipHubListener := by
  constructor
  · rfl
  · decide

/-- Claim C2 (amended): dispatch order is descending priority value (higher
value = earlier).  For every listener set containing the KIP hub's listener
in which every other listener has a strictly lower priority than the hub's
INT_MAX — as the HID input listener's priority 1 does — the hub's listener
is dispatched first, before every other listener of the class. -/
theorem kip_hub_dispatched_first_descending (ls : List Listener)
    (hmem : kipHubListener ∈ ls)
    (hmax : ∀ l ∈ ls, l ≠ kipHubListener →
      l.priority < kipHubListener.priority) :
    ∃ rest, dispatchOrderDescending ls = kipHubListener :: rest ∧
      ∀ l ∈ ls, l ≠ kipHubListener → l ∈ rest := by
  have hsorted : List.Sorted notifDesc (dispatchOrderDescending ls) :=
    List.sorted_insertionSort notifDesc ls
  have hperm : List.Perm (dispatchOrderDescending ls) ls :=
    List.perm_insertionSort notifDesc ls
  obtain ⟨h, t, hht⟩ : ∃ h t, dispatchOrderDescending ls = h :: t := by
    cases hd : dispatchOrderDescending ls with
    | nil =>
      exact absurd (hperm.mem_iff.mpr hmem) (by simp [hd])
    | cons h t => exact ⟨h, t, rfl⟩
  have hkmem : kipHubListener ∈ h :: t := by
    rw [← hht]; exact hperm.mem_iff.mpr hmem
  have hhead : h = kipHubListener := by
    by_contra hne
    rcases List.mem_cons.mp hkmem with heq | hm
    · exact hne heq.symm
    · have hr : notifDesc h kipHubListener :=
        (List.sorted_cons.mp (hht ▸ hsorted)).1 kipHubListener hm
      have hin : h ∈ ls := hperm.mem_iff.mp (by rw [hht]; simp)
      have hlt := hmax h hin hne
      simp only [notifDesc] at hr
      omega
  refine ⟨t, by rw [hht, hhead], fun l hl hlne => ?_⟩
  have : l ∈ h :: t := by rw [← hht]; exact hperm.mem_iff.mpr hl
  rcases List.mem_cons.mp this with heq | hm
  · exact absurd (heq.trans hhead) hlne
  · exact hm

/-- Witness for `kip_hub_dispatched_first_descending` on the concrete
two-listener set: the hub's INT_MAX listener is dispatched first, before
the priority-1 HID input listener. -/
theorem kip_hub_dispatched_first_descending_witness :
    kipHubListener ∈ [sidVhfListener, kipHubListener] ∧
    ∃ rest, dispatchOrderDescending [sidVhfListener, kipHubListener] =
        kipHubListener :: rest ∧
      ∀ l ∈ [sidVhfListener, kipHubListener], l ≠ kipHubListener →
        l ∈ rest :=
  ⟨by decide,
   kip_hub_dispatched_first_descending [sidVhfListener, kipHubListener]
     (by decide) (by decide)⟩

/-- Against the zero-progress remote, every loop iteration leaves the
request state and the buffer unchanged, so the fetch loop never produces
any outcome, for any iteration bound. -/
theorem vhf_fetch_loop_zero_stuck (len : Nat) :
    ∀ (fuel o l : Nat) (b : List Nat) (r : Nat), o < len →
      vhf_fetch_loop vhf_zero_len_oracle len fuel ⟨1, o, l, false⟩ b r =
        none := by
  intro fuel
  induction fuel with
  | zero => intro o l b r _; rfl
  | succ fuel ih =>
    intro o l b r h
    simp only [vhf_fetch_loop, vhf_zero_len_oracle, memcpyAt]
    simp [h]
    exact ih o 0 b (r + 1) h

/-- Claim C1 (refuted by the code — exhibit of the divergence): against a
remote whose metadata answer declares a 1-byte descriptor and whose every
read response carries zero bytes with the end flag clear while the offset
has not reached the total length, `vhf_get_hid_descriptor` does not fail
with an error: the fetch loop makes no progress and never produces any
outcome, however many iterations are unfolded — the code loops
indefinitely instead of failing the transfer. -/
theorem vhf_get_hid_descriptor_zero_length_loops (fuel : Nat) :
    vhf_get_hid_descriptor vhf_zero_len_oracle fuel = none := by
  have h := vhf_fetch_loop_zero_stuck 1 fuel 0 0x76 [0] 0 (by norm_num)
  simp only [vhf_get_hid_descriptor, vhf_zero_len_oracle, vhf_info_hid_len]
  norm_num
  rw [h]

/-- Ceiling-division arithmetic: a final chunk of size 1..C is one
request. -/
theorem ceil_div_one_chunk (m C : Nat) (hC : 0 < C) (h1 : 1 ≤ m)
    (hm : m ≤ C) : (m + C - 1) / C = 1 := by
  have he : m + C - 1 = (m - 1) + C := by omega
  rw [he, Nat.add_div_right _ hC, Nat.div_eq_of_lt (by omega)]

/-- Ceiling-division arithmetic: with more than C bytes remaining, one
full chunk leaves the remaining ceiling count minus one. -/
theorem ceil_div_more_chunks (m C : Nat) (hC : 0 < C) (hm : C < m) :
    (m + C - 1) / C = ((m - C) + C - 1) / C + 1 := by
  have he : m + C - 1 = ((m - C) + C - 1) + C := by omega
  rw [he, Nat.add_div_right _ hC]

/-- `memcpy` at the boundary between a filled front segment and the rest
of the buffer. -/
theorem memcpyAt_append (A B src : List Nat) :
    memcpyAt (A ++ B) A.length src = A ++ src ++ B.drop src.length := by
  unfold memcpyAt
  rw [List.take_left, List.drop_append]

/-- Copying the next chunk extends the correctly-filled front segment of
the transfer buffer from `o` to `o + n` bytes. -/
theorem vhf_chunk_buffer_step (L o n : Nat) (data : Nat → Nat) :
    memcpyAt ((List.range o).map data ++ List.replicate (L - o) 0) o
      ((List.range n).map (fun i => data (o + i))) =
    (List.range (o + n)).map data ++ List.replicate (L - (o + n)) 0 := by
  have hA : ((List.range o).map data).length = o := by simp
  have hsrc : ((List.range n).map (fun i => data (o + i))).length = n := by
    simp
  have h1 := memcpyAt_append ((List.range o).map data)
    (List.replicate (L - o) 0) ((List.range n).map (fun i => data (o + i)))
  rw [hA, hsrc] at h1
  rw [h1, List.drop_replicate, List.range_add, List.map_append,
    List.map_map]
  simp [Function.comp, Nat.sub_sub]

/-- The fetch loop against a well-behaved remote, from any intermediate
offset: the remaining run issues exactly the remaining ceiling count of
requests and completes the buffer. -/
theorem vhf_chunk_loop_run (L C : Nat) (data : Nat → Nat) (hC : 0 < C) :
    ∀ (fuel o r : Nat), o < L →
      ((L - o) + C - 1) / C + 1 ≤ fuel →
      vhf_fetch_loop (vhf_chunk_oracle L data) L fuel ⟨1, o, C, false⟩
        ((List.range o).map data ++ List.replicate (L - o) 0) r =
      some (Except.ok ((List.range L).map data), r + ((L - o) + C - 1) / C)
    := by
  intro fuel
  induction fuel with
  | zero => intro o r ho hf; exact (Nat.not_succ_le_zero _ hf).elim
  | succ fuel ih =>
    intro o r ho hf
    have htake : ((List.range (min C (L - o))).map
        (fun i => data (o + i))).take (min C (L - o)) =
        (List.range (min C (L - o))).map (fun i => data (o + i)) :=
      List.take_of_length_le (by simp)
    have hbuf := vhf_chunk_buffer_step L o (min C (L - o)) data
    simp only [vhf_fetch_loop, vhf_chunk_oracle]
    simp only [if_pos (show True ∧ o < L from ⟨trivial, ho⟩)]
    rw [if_neg (by decide)]
    rw [htake, hbuf]
    by_cases hcase : L - o ≤ C
    · rw [min_eq_right hcase]
      rw [show o + (L - o) = L from by omega, Nat.sub_self]
      have hone : (L - o + C - 1) / C = 1 :=
        ceil_div_one_chunk (L - o) C hC (by omega) hcase
      rw [hone] at hf
      rw [hone]
      obtain ⟨g, rfl⟩ : ∃ g, fuel = g + 1 := ⟨fuel - 1, by omega⟩
      simp only [vhf_fetch_loop]
      rw [if_neg (by simp)]
      simp
    · push_neg at hcase
      rw [min_eq_left hcase.le]
      have hmore : (L - o + C - 1) / C = ((L - o - C) + C - 1) / C + 1 :=
        ceil_div_more_chunks (L - o) C hC hcase
      have heq : L - (o + C) = L - o - C := by omega
      rw [hmore] at hf
      have hih := ih (o + C) (r + 1) (by omega)
        (by rw [heq]; exact Nat.le_of_succ_le_succ hf)
      rw [hih, hmore, heq]
      rw [show ∀ X : Nat, r + 1 + X = r + (X + 1) from fun X => by omega]

/-- Claim C4: for a chunked fetch of declared total length L with maximum
chunk size C, against a remote that never sets the end flag early and
whose every response carries min(C, L - offset) bytes, the fetch loop
issues exactly ceil(L/C) = (L + C - 1) / C read requests and the resulting
buffer is the returned chunks laid out in offset order — byte i of the
buffer is byte i of the descriptor, for all i below L. -/
theorem vhf_chunked_fetch_spec (L C : Nat) (data : Nat → Nat) (fuel : Nat)
    (hC : 0 < C) (hfuel : (L + C - 1) / C + 1 ≤ fuel) :
    vhf_fetch_loop (vhf_chunk_oracle L data) L fuel ⟨1, 0, C, false⟩
      (List.replicate L 0) 0 =
    some (Except.ok ((List.range L).map data), (L + C - 1) / C) := by
  rcases Nat.eq_zero_or_pos L with hL | hL
  · subst hL
    have h0 : (0 + C - 1) / C = 0 := by
      rw [Nat.zero_add]; exact Nat.div_eq_of_lt (by omega)
    rw [h0] at hfuel
    rw [h0]
    obtain ⟨g, rfl⟩ : ∃ g, fuel = g + 1 := ⟨fuel - 1, by omega⟩
    simp only [vhf_fetch_loop]
    rw [if_neg (by simp)]
    simp
  · have h := vhf_chunk_loop_run L C data hC fuel 0 0 hL
      (by simpa using hfuel)
    simpa using h

/-- Witness for `vhf_chunked_fetch_spec`: the spec's scenario D — a
300-byte descriptor fetched with 118-byte chunks takes exactly 3 read
requests (118 + 118 + 64 bytes) and fills the whole 300-byte buffer. -/
theorem vhf_chunked_fetch_spec_witness :
    vhf_fetch_loop (vhf_chunk_oracle 300 (fun i => i % 256)) 300 10
      ⟨1, 0, 118, false⟩ (List.replicate 300 0) 0 =
    some (Except.ok ((List.range 300).map (fun i => i % 256)), 3) := by
  have h := vhf_chunked_fetch_spec 300 118 (fun i => i % 256) 10
    (by norm_num) (by norm_num)
  norm_num at h
  exact h
